import Mathlib

/-!
Verification of the training-progress and certification core of the
`lms-backend` repository against its natural-language specification.

The definitions below are a shallow embedding of:
  * `src/models/Training.js`        (course catalog entry, quiz definition),
  * `src/models/TrainingProgress.js` (per-user-per-course progress document
    and its instance methods `canTakeQuiz`, `addQuizAttempt`,
    `updateVideoProgress`),
  * the Certificate model (schema, unique `(userId, trainingId)` index,
    `generateCertificateId`),
  * the training route handlers in `src/routes/files.js`
    (`GET /:id` access check, `PUT /:id/progress`, `POST /:id/quiz/submit`,
    `PUT /:id/video-progress`, `POST /:id/certificate`).

JS numbers are modelled as rationals, timestamps as naturals passed in
explicitly, and Mongo documents as Lean structures.  Persistence is
abstracted: a route handler is a function from the documents it reads to the
documents it writes plus the HTTP-level result (`Except` for error
responses).  Nondeterministic identifiers (`generateCertificateId`, Mongo
`_id`) are injected as parameters.
-/

namespace LMS

/-- JS `Math.round`: rounds half toward positive infinity, i.e.
`Math.round(x) = Math.floor(x + 0.5)`. -/
def jsRound (q : ℚ) : ℤ :=
  Rat.floor (q + 1/2)

/-- JS truthiness of a string-or-undefined value: `undefined` and the empty
string are falsy, every other string is truthy. -/
def jsStrTruthy : Option String → Bool
  | none => false
  | some s => !s.isEmpty

/-- JS `x || d` for a number-or-undefined `x`: `undefined` and `0` are falsy
and yield the default `d`. -/
def jsOrNum : Option ℚ → ℚ → ℚ
  | none, d => d
  | some v, d => if v = 0 then d else v

/-- One question of a course quiz (`trainingSchema.quiz.questions[i]`):
option texts plus the index of the correct option. -/
structure QuizQuestion where
  question : String
  options : List String
  correctAnswer : ℤ
  deriving DecidableEq

/-- A course quiz definition (`trainingSchema.quiz`).  `maxAttempts` is kept
optional to model a document on which the field is unset; the code reads it
as `quiz.maxAttempts || 3`. -/
structure Quiz where
  questions : List QuizQuestion
  passingScore : ℚ
  timeLimit : ℚ
  allowRetakes : Bool
  maxAttempts : Option ℚ
  deriving DecidableEq

/-- A course catalog entry (`trainingSchema`).  Only the fields the verified
routes and methods read are carried.  `contentVideoUrl` and
`contentYoutubeUrl` embed `content.videoUrl` and `content.youtubeUrl`;
`specificDepartments` and `specificRoles` are the audience fields the schema
declares. -/
structure Training where
  title : String
  description : String
  category : String
  duration : ℚ
  contentVideoUrl : Option String
  contentYoutubeUrl : Option String
  quiz : Option Quiz
  targetAudience : String
  specificDepartments : List String
  specificRoles : List String
  deriving DecidableEq

/-- One per-question answer stored inside a quiz attempt
(`trainingProgressSchema.quizAttempts[i].answers[j]`). -/
structure AnswerRecord where
  questionIndex : ℤ
  selectedAnswer : ℤ
  isCorrect : Bool
  deriving DecidableEq

/-- One stored quiz attempt (`trainingProgressSchema.quizAttempts[i]`). -/
structure QuizAttempt where
  attemptNumber : ℕ
  answers : List AnswerRecord
  score : ℚ
  passed : Bool
  timeSpent : ℚ
  submittedAt : ℕ
  deriving DecidableEq

/-- The JS value held by the `quizAttempts` field of a progress document.
The schema types it as an array of attempt subdocuments (`arr`), but the
quiz-submit route computes `(quizAttempts || 0) + 1` as the value to store;
since a JS array is always truthy, `+` coerces the array to its string form
and the computed value is a string (`coerced`), not an array — which is why
the subsequent `save()` rejects (see `submitQuizRoute`).  The concrete
rendering of the coerced string fixes the default JS
`Array.prototype.toString` (elements joined by a comma); no theorem depends
on its exact content, only on the value not being an array. -/
inductive AttemptsField where
  | arr (xs : List QuizAttempt)
  | coerced (s : String)
  deriving DecidableEq

/-- JS truthiness of the `quizAttempts` field: an array is truthy even when
empty; a string is truthy when non-empty. -/
def AttemptsField.jsTruthy : AttemptsField → Bool
  | .arr _ => true
  | .coerced s => !s.isEmpty

/-- JS `.length` of the `quizAttempts` field (arrays and strings both have a
`length` property). -/
def AttemptsField.jsLength : AttemptsField → ℕ
  | .arr xs => xs.length
  | .coerced s => s.length

/-- A per-user-per-course progress document (`trainingProgressSchema`).
`currentScore` and `lastQuizAt` are ad-hoc fields written by the quiz-submit
route although the schema does not declare them. -/
structure TrainingProgress where
  status : String
  progress : ℚ
  videoWatchTime : ℚ
  videoCompleted : Bool
  quizAttempts : AttemptsField
  bestScore : ℚ
  quizPassed : Bool
  certificateGenerated : Bool
  certificateUrl : Option String
  currentScore : Option ℚ
  lastQuizAt : Option ℕ
  startedAt : Option ℕ
  completedAt : Option ℕ
  lastAccessedAt : ℕ
  deriving DecidableEq

/-- A fresh progress document with the schema defaults
(`status 'not_started'`, `progress 0`, empty attempt array, flags false). -/
def newProgress (now : ℕ) : TrainingProgress where
  status := "not_started"
  progress := 0
  videoWatchTime := 0
  videoCompleted := false
  quizAttempts := .arr []
  bestScore := 0
  quizPassed := false
  certificateGenerated := false
  certificateUrl := none
  currentScore := none
  lastQuizAt := none
  startedAt := none
  completedAt := none
  lastAccessedAt := now

/-- `trainingSchema.methods.hasVideoContent`:
`!!(this.content.videoUrl || this.content.youtubeUrl)`. -/
def Training.hasVideoContent (t : Training) : Bool :=
  jsStrTruthy t.contentVideoUrl || jsStrTruthy t.contentYoutubeUrl

/-- The attempt count read by `canTakeQuiz`:
`this.quizAttempts ? this.quizAttempts.length : 0`. -/
def attemptCount (p : TrainingProgress) : ℕ :=
  if p.quizAttempts.jsTruthy then p.quizAttempts.jsLength else 0

/-- `trainingProgressSchema.methods.canTakeQuiz(training)`: no training or no
quiz means not eligible; a course with video content requires the video to be
completed; once passed, eligibility is the quiz's `allowRetakes`; otherwise
the attempt count must be below `quiz.maxAttempts || 3`. -/
def TrainingProgress.canTakeQuiz (p : TrainingProgress) (training : Option Training) : Bool :=
  match training with
  | none => false
  | some t =>
    match t.quiz with
    | none => false
    | some qz =>
      if t.hasVideoContent && !p.videoCompleted then false
      else if p.quizPassed then qz.allowRetakes
      else decide ((attemptCount p : ℚ) < jsOrNum qz.maxAttempts 3)

/-- `trainingProgressSchema.methods.addQuizAttempt(answers, score, passed,
timeSpent)`: appends an attempt numbered `length + 1`, raises `bestScore`
when the new score exceeds it, and on a pass sets `quizPassed`,
`status 'completed'`, `progress 100` and `completedAt`.  Returns `none` when
the field holds a non-array truthy value (JS would throw calling `.push` on
it); such a state never arises from schema-valid documents. -/
def TrainingProgress.addQuizAttempt (p : TrainingProgress) (answers : List AnswerRecord)
    (score : ℚ) (passed : Bool) (timeSpent : ℚ) (now : ℕ) : Option TrainingProgress :=
  let field := if p.quizAttempts.jsTruthy then p.quizAttempts else .arr []
  match field with
  | .coerced _ => none
  | .arr xs =>
    let a : QuizAttempt :=
      { attemptNumber := xs.length + 1, answers := answers, score := score,
        passed := passed, timeSpent := timeSpent, submittedAt := now }
    let p1 := { p with
      quizAttempts := AttemptsField.arr (xs ++ [a]),
      bestScore := if p.bestScore < score then score else p.bestScore }
    some (if passed then
      { p1 with quizPassed := true, status := "completed", progress := 100,
                completedAt := some now }
    else p1)

/-- `trainingProgressSchema.methods.updateVideoProgress(watchTime,
totalDuration)`: stores the maximum watch time ever reported; at a watch
percentage of 90 or more marks the video completed and raises `progress` to
at least 50, otherwise raises it to at least `floor(watchPercentage * 0.5)`;
finally moves `not_started` to `in_progress`.  (`totalDuration = 0` yields a
JS infinity at the source; rational division by zero gives `0` here, the
monotonicity statements hold in either reading.) -/
def TrainingProgress.updateVideoProgress (p : TrainingProgress)
    (watchTime totalDuration : ℚ) (now : ℕ) : TrainingProgress :=
  let p1 := { p with videoWatchTime := max p.videoWatchTime watchTime }
  let watchPercentage : ℚ := watchTime / totalDuration * 100
  let p2 :=
    if (90 : ℚ) ≤ watchPercentage then
      { p1 with videoCompleted := true, progress := max p1.progress 50 }
    else
      { p1 with progress := max p1.progress ((Rat.floor (watchPercentage * (1/2)) : ℤ) : ℚ) }
  let p3 := { p2 with lastAccessedAt := now }
  if p3.status = "not_started" then
    { p3 with status := "in_progress", startedAt := some now }
  else p3

/-- The correct-answer count of `POST /:id/quiz/submit`: the handler iterates
the quiz questions with their index and counts the positions where
`answers[index] === question.correctAnswer` (a missing answer is `undefined`
and never equal). -/
def countCorrect : List QuizQuestion → List ℤ → ℕ
  | [], _ => 0
  | _ :: qs, [] => countCorrect qs []
  | q :: qs, a :: as => (if a = q.correctAnswer then 1 else 0) + countCorrect qs as

/-- The score computed by `POST /:id/quiz/submit`:
`Math.round((correctAnswers / questions.length) * 100)`. -/
def quizScore (qz : Quiz) (answers : List ℤ) : ℤ :=
  jsRound ((countCorrect qz.questions answers : ℚ) / (qz.questions.length : ℚ) * 100)

/-- The JSON payload returned by `POST /:id/quiz/submit` on success. -/
structure QuizSubmitResponse where
  score : ℤ
  passed : Bool
  passingScore : ℚ
  deriving DecidableEq

/-- Default JS rendering of the attempts array when coerced to a string:
elements joined by a comma, each object rendering as `[object Object]`. -/
def attemptsJsString (xs : List QuizAttempt) : String :=
  String.intercalate "," (xs.map fun _ => "[object Object]")

/-- The value `POST /:id/quiz/submit` computes for `quizAttempts`:
`(this.quizAttempts || 0) + 1`.  An array is truthy, so on a schema-valid
document this coerces the array to a string and appends `"1"`.  A previously
coerced string is truthy as well (every computed string ends in `"1"`, so the
falsy empty string never occurs) and again gets `"1"` appended. -/
def routeQuizAttemptsWrite : AttemptsField → AttemptsField
  | .arr xs => .coerced (attemptsJsString xs ++ "1")
  | .coerced s => .coerced (s ++ "1")

/-- The in-memory document state `POST /:id/quiz/submit` builds before
calling `save()` when a progress record exists: sets `currentScore`, raises
`bestScore` to `Math.max(bestScore || 0, score)`, overwrites `quizAttempts`
with `(quizAttempts || 0) + 1`, sets `lastQuizAt`, and on a pass sets
`status 'completed'`, `completedAt` and `progress 100`.  It never touches
`quizPassed`.  This state is never persisted: the `quizAttempts` value — the
attempts array coerced to a string — cannot be cast or validated against the
schema's array of subdocuments with a required `attemptNumber`, so the
subsequent `save()` rejects (see `submitQuizRoute`). -/
def submitQuizPending (p : TrainingProgress) (score : ℤ) (passed : Bool) (now : ℕ) :
    TrainingProgress :=
  let p1 := { p with
    currentScore := some (score : ℚ),
    bestScore := max p.bestScore (score : ℚ),
    quizAttempts := routeQuizAttemptsWrite p.quizAttempts,
    lastQuizAt := some now }
  if passed then
    { p1 with status := "completed", completedAt := some now, progress := 100 }
  else p1

/-- `POST /:id/quiz/submit`: 404 when the training or its quiz is missing;
otherwise computes the score and compares it with `quiz.passingScore`.  When
no progress record exists the handler skips the update block and sends the
success payload.  When a record exists it builds `submitQuizPending` in
memory and awaits `trainingProgress.save()`; Mongoose cannot cast or
validate the `quizAttempts` value (a string where the schema requires an
array of subdocuments with a required `attemptNumber`), so the save rejects,
the `catch` answers 500 (`Server error`), nothing is persisted, and the
success payload is never sent.  Returns the HTTP-level result together with
the stored progress document. -/
def submitQuizRoute (training : Option Training) (answers : List ℤ)
    (prog : Option TrainingProgress) (now : ℕ) :
    Except String QuizSubmitResponse × Option TrainingProgress :=
  match training with
  | none => (.error "Training or quiz not found", prog)
  | some t =>
    match t.quiz with
    | none => (.error "Training or quiz not found", prog)
    | some qz =>
      let score := quizScore qz answers
      let passed := decide (qz.passingScore ≤ (score : ℚ))
      match prog with
      | none =>
        (.ok { score := score, passed := passed, passingScore := qz.passingScore }, none)
      | some p => (.error "Server error", some p)

/-- `PUT /:id/progress`: clamps the reported value to `[0, 100]` with
`Math.min(100, Math.max(0, progress))`, and when the clamped value is exactly
`100` sets `status 'completed'` and `completedAt`.  The handler never reads
the course and never touches `quizPassed`. -/
def updateProgressRoute (p : TrainingProgress) (input : ℚ) (now : ℕ) : TrainingProgress :=
  let p1 := { p with progress := min 100 (max 0 input), lastAccessedAt := now }
  if p1.progress = 100 then
    { p1 with status := "completed", completedAt := some now }
  else p1

/-- The quiz test of `PUT /:id/video-progress`:
`!training.quiz || !training.quiz.questions || training.quiz.questions.length === 0`. -/
def quizMissingOrEmpty (t : Training) : Bool :=
  match t.quiz with
  | none => true
  | some qz => qz.questions.isEmpty

/-- `PUT /:id/video-progress`: creates an `in_progress` record when none
exists, then overwrites `videoWatchTime` with the reported value and
`videoCompleted` with the client flag (`completed || false`).  When the flag
is set, `progress` becomes `100` and, if the course has no quiz (or an empty
question list), `status 'completed'` and `completedAt` are set; otherwise,
for a positive duration, `progress` becomes
`Math.min(95, (watchTime / totalDuration) * 100)`.  The model method
`updateVideoProgress` is not called. -/
def videoProgressRoute (prog : Option TrainingProgress) (training : Training)
    (watchTime totalDuration : ℚ) (completed : Bool) (now : ℕ) : TrainingProgress :=
  let p0 := match prog with
    | some p => p
    | none => { newProgress now with status := "in_progress", startedAt := some now }
  let p1 := { p0 with videoWatchTime := watchTime, videoCompleted := completed,
                      lastAccessedAt := now }
  if completed then
    let p2 := { p1 with progress := 100 }
    if quizMissingOrEmpty training then
      { p2 with status := "completed", completedAt := some now }
    else p2
  else if 0 < totalDuration then
    { p1 with progress := min 95 (watchTime / totalDuration * 100) }
  else p1

/-- Path access on a Training document as Mongoose performs it: only paths
declared by the schema resolve to a value, any other path reads as
`undefined` (`none`).  The schema declares `specificDepartments` and
`specificRoles` as its audience list fields. -/
def trainingGetListField (t : Training) (field : String) : Option (List String) :=
  if field = "specificDepartments" then some t.specificDepartments
  else if field = "specificRoles" then some t.specificRoles
  else none

/-- JS `xs.includes(x)`: membership for an array, a `TypeError` when the
receiver is `undefined`. -/
def jsIncludes (xs : Option (List String)) (x : String) : Except String Bool :=
  match xs with
  | none => .error "TypeError: includes of undefined"
  | some l => .ok (l.contains x)

/-- The access check of `GET /:id`:
`training.targetAudience === 'all' || training.departments.includes(user.department)
|| training.roles.includes(user.role)`, with JS short-circuit evaluation.
The handler reads the paths `departments` and `roles`. -/
def hasAccessRoute (t : Training) (userDepartment userRole : String) :
    Except String Bool :=
  if t.targetAudience = "all" then .ok true
  else
    match jsIncludes (trainingGetListField t "departments") userDepartment with
    | .error e => .error e
    | .ok true => .ok true
    | .ok false => jsIncludes (trainingGetListField t "roles") userRole

/-- The access predicate as the specification states it (claim C8): access is
granted exactly when the audience is `all`, or the user's department is in
the course's department set, or the user's role is in the course's role set.
This definition follows the spec's words, for comparison with
`hasAccessRoute`. -/
def canAccessClaim (t : Training) (userDepartment userRole : String) : Bool :=
  (t.targetAudience == "all") || t.specificDepartments.contains userDepartment ||
    t.specificRoles.contains userRole

/-- A certificate document (`certificateSchema`): snapshot fields copied at
issuance plus validity bookkeeping.  `mongoId` stands for the document's
Mongo `_id`. -/
structure Certificate where
  userId : ℕ
  trainingId : ℕ
  certificateId : String
  userName : String
  trainingTitle : String
  completionDate : Option ℕ
  score : ℚ
  passingScore : ℚ
  duration : ℚ
  category : String
  issuedBy : String
  isValid : Bool
  validUntil : Option ℕ
  downloadCount : ℕ
  mongoId : String
  deriving DecidableEq

/-- `Certificate.findOne(\x7b userId, trainingId \x7d)` over the certificate
collection, modelled as a list. -/
def findCertificate (certs : List Certificate) (u tid : ℕ) : Option Certificate :=
  certs.find? fun c => c.userId == u && c.trainingId == tid

/-- `POST /:id/certificate`: requires a progress record for the pair with
`status 'completed'` (the handler queries with that status filter), answers
400 otherwise; then returns the existing certificate for the pair when one
exists, and only otherwise creates one, snapshotting the course and progress
fields, and marks the progress record `certificateGenerated`.  The generated
`certificateId` and Mongo `_id` are injected as `genId` and `mongoId`.
Returns the HTTP-level result, the resulting certificate collection and the
resulting progress record. -/
def issueCertificateRoute (certs : List Certificate) (prog : Option TrainingProgress)
    (training : Training) (u tid : ℕ) (userName : String) (genId mongoId : String) :
    Except String Certificate × List Certificate × Option TrainingProgress :=
  let completedProg := prog.bind fun p => if p.status = "completed" then some p else none
  match completedProg with
  | none => (.error "Training must be completed before generating certificate", certs, prog)
  | some p =>
    match findCertificate certs u tid with
    | some cert => (.ok cert, certs, prog)
    | none =>
      let cert : Certificate :=
        { userId := u, trainingId := tid, certificateId := genId,
          userName := userName, trainingTitle := training.title,
          completionDate := p.completedAt,
          score := jsOrNum (some p.bestScore) 0,
          passingScore := jsOrNum (training.quiz.map Quiz.passingScore) 0,
          duration := training.duration, category := training.category,
          issuedBy := "LMS Orient Training System",
          isValid := true, validUntil := none, downloadCount := 0,
          mongoId := mongoId }
      let p1 := { p with
        certificateGenerated := true,
        certificateUrl := some ("/api/training/certificate/" ++ mongoId) }
      (.ok cert, certs ++ [cert], some p1)

/-! ### Sample documents used to instantiate the theorems below -/

/-- A two-question quiz with passing score 70 (correct options 0 and 1). -/
def quizC1 : Quiz where
  questions := [ { question := "q1", options := ["a", "b"], correctAnswer := 0 },
                 { question := "q2", options := ["a", "b"], correctAnswer := 1 } ]
  passingScore := 70
  timeLimit := 30
  allowRetakes := true
  maxAttempts := some 3

/-- A youtube training carrying `quizC1`. -/
def trainingC1 : Training where
  title := "Security Basics"
  description := "Intro"
  category := "Security"
  duration := 30
  contentVideoUrl := none
  contentYoutubeUrl := some "https://youtu.be/abc"
  quiz := some quizC1
  targetAudience := "all"
  specificDepartments := []
  specificRoles := []

/-- A single-question quiz with passing score 70 (correct option 0). -/
def quizC2 : Quiz where
  questions := [ { question := "q1", options := ["a", "b"], correctAnswer := 0 } ]
  passingScore := 70
  timeLimit := 30
  allowRetakes := true
  maxAttempts := some 3

/-- A training carrying `quizC2`. -/
def trainingC2 : Training where
  title := "Compliance 101"
  description := "Course"
  category := "Compliance"
  duration := 45
  contentVideoUrl := some "/api/training/video/v1.mp4"
  contentYoutubeUrl := none
  quiz := some quizC2
  targetAudience := "all"
  specificDepartments := []
  specificRoles := []

/-- A completed progress record (best score 80, completed at time 10). -/
def progressC2 : TrainingProgress :=
  { newProgress 0 with
    status := "completed", progress := 100, videoCompleted := true,
    bestScore := 80, quizPassed := true, completedAt := some 10 }

/-- A quiz-less training. -/
def trainingC3 : Training where
  title := "Plain Video"
  description := "Video only"
  category := "Other"
  duration := 10
  contentVideoUrl := some "/api/training/video/v3.mp4"
  contentYoutubeUrl := none
  quiz := none
  targetAudience := "all"
  specificDepartments := []
  specificRoles := []

/-- A single-question quiz with passing score 70 (correct option 0). -/
def quizC4 : Quiz where
  questions := [ { question := "q1", options := ["a", "b"], correctAnswer := 0 } ]
  passingScore := 70
  timeLimit := 30
  allowRetakes := true
  maxAttempts := some 3

/-- An interactive training carrying `quizC4` (no video content, so the quiz
is reachable without watching anything). -/
def trainingC4 : Training where
  title := "Phishing Drill"
  description := "Quiz course"
  category := "Security"
  duration := 15
  contentVideoUrl := none
  contentYoutubeUrl := none
  quiz := some quizC4
  targetAudience := "all"
  specificDepartments := []
  specificRoles := []

/-- A quiz-less training for the watch-time sequence theorems. -/
def trainingC5 : Training where
  title := "Long Video"
  description := "Video only"
  category := "Other"
  duration := 60
  contentVideoUrl := some "/api/training/video/v5.mp4"
  contentYoutubeUrl := none
  quiz := none
  targetAudience := "all"
  specificDepartments := []
  specificRoles := []

/-- A single-question quiz allowing at most 3 attempts. -/
def quizC6 : Quiz where
  questions := [ { question := "q1", options := ["a", "b"], correctAnswer := 0 } ]
  passingScore := 70
  timeLimit := 30
  allowRetakes := true
  maxAttempts := some 3

/-- An interactive training carrying `quizC6` (no video content). -/
def trainingC6 : Training where
  title := "Policy Quiz"
  description := "Quiz only"
  category := "Compliance"
  duration := 20
  contentVideoUrl := none
  contentYoutubeUrl := none
  quiz := some quizC6
  targetAudience := "all"
  specificDepartments := []
  specificRoles := []

/-- A failed quiz attempt used to populate `progressC6`. -/
def failedAttempt (n : ℕ) : QuizAttempt where
  attemptNumber := n
  answers := [ { questionIndex := 0, selectedAnswer := 1, isCorrect := false } ]
  score := 0
  passed := false
  timeSpent := 5
  submittedAt := n

/-- A progress record with all 3 attempts used and the quiz never passed. -/
def progressC6 : TrainingProgress :=
  { newProgress 0 with
    status := "in_progress",
    quizAttempts := .arr [failedAttempt 1, failedAttempt 2, failedAttempt 3] }

/-- A quiz-less training for the video-completion scenario. -/
def trainingC7 : Training where
  title := "Orientation Video"
  description := "Video only"
  category := "Other"
  duration := 5
  contentVideoUrl := some "/api/training/video/v7.mp4"
  contentYoutubeUrl := none
  quiz := none
  targetAudience := "all"
  specificDepartments := []
  specificRoles := []

/-- A training restricted to the Finance department
(`targetAudience 'specific'`, `specificDepartments ['Finance']`). -/
def trainingC8 : Training where
  title := "Finance Rules"
  description := "Department course"
  category := "Compliance"
  duration := 25
  contentVideoUrl := none
  contentYoutubeUrl := some "https://youtu.be/fin"
  quiz := none
  targetAudience := "specific"
  specificDepartments := ["Finance"]
  specificRoles := []

/-- The same course opened to everybody (`targetAudience 'all'`). -/
def trainingC8all : Training :=
  { trainingC8 with targetAudience := "all" }

/-- A single-question quiz with passing score 70 (correct option 0). -/
def quizC9 : Quiz where
  questions := [ { question := "q1", options := ["a", "b"], correctAnswer := 0 } ]
  passingScore := 70
  timeLimit := 30
  allowRetakes := true
  maxAttempts := some 3

/-- An interactive training carrying `quizC9`. -/
def trainingC9 : Training where
  title := "Data Handling"
  description := "Quiz course"
  category := "Security"
  duration := 15
  contentVideoUrl := none
  contentYoutubeUrl := none
  quiz := some quizC9
  targetAudience := "all"
  specificDepartments := []
  specificRoles := []

/-! ### Helper lemmas -/

/-- Evaluation helper: `Rat.floor q = n` from the two defining bounds. -/
theorem ratFloor_eq_of_bounds (q : ℚ) (n : ℤ) (h1 : (n : ℚ) ≤ q) (h2 : q < n + 1) :
    Rat.floor q = n := by
  have h3 : ⌊q⌋ = Rat.floor q := by rw [Rat.floor_def, Rat.floor_def']
  rw [← h3]
  exact Int.floor_eq_iff.mpr ⟨h1, h2⟩

/-- With no answers, no position matches. -/
theorem countCorrect_nil (qs : List QuizQuestion) : countCorrect qs [] = 0 := by
  induction qs with
  | nil => rfl
  | cons q qs ih => simpa [countCorrect] using ih

/-- The handler's correct-answer count is the number of positions `i` at
which `answers[i]` equals question `i`'s correct-option index. -/
theorem countCorrect_eq_positions (qs : List QuizQuestion) (as : List ℤ) :
    countCorrect qs as =
      ((List.range qs.length).filter fun i =>
        decide (as[i]? = (qs[i]?).map QuizQuestion.correctAnswer)).length := by
  induction qs generalizing as with
  | nil => simp [countCorrect]
  | cons q qs ih =>
    cases as with
    | nil =>
      rw [countCorrect, countCorrect_nil]
      have h : ∀ i ∈ List.range (q :: qs).length,
          ¬ (decide (([] : List ℤ)[i]? =
              ((q :: qs)[i]?).map QuizQuestion.correctAnswer) = true) := by
        intro i hi
        rw [List.mem_range] at hi
        simp [List.getElem?_eq_getElem hi]
      rw [List.filter_eq_nil_iff.mpr h]
      rfl
    | cons a as =>
      rw [countCorrect, ih as]
      by_cases ha : a = q.correctAnswer
      · simp [List.range_succ_eq_map, List.filter_cons, List.filter_map,
          Function.comp_def, ha, Nat.add_comm]
      · simp [List.range_succ_eq_map, List.filter_cons, List.filter_map,
          Function.comp_def, ha]

/-- Appending a matching element to a list with no match makes `find?` return
that element. -/
theorem find?_append_singleton {α : Type} (p : α → Bool) (l : List α) (c : α)
    (h : l.find? p = none) (hc : p c = true) : (l ++ [c]).find? p = some c := by
  induction l with
  | nil => simp [List.find?, hc]
  | cons d ds ih =>
    cases hpd : p d with
    | true =>
      rw [List.find?_cons_of_pos _ hpd] at h
      exact absurd h (by simp)
    | false =>
      have hpd2 : ¬ p d = true := by simp [hpd]
      rw [List.find?_cons_of_neg _ hpd2] at h
      rw [List.cons_append, List.find?_cons_of_neg _ hpd2]
      exact ih h

/-- Evaluation helper: two correct answers out of two score 100. -/
theorem quizC1_score : quizScore quizC1 [0, 1] = 100 := by
  rw [quizScore, jsRound]
  norm_num [countCorrect, quizC1]
  apply ratFloor_eq_of_bounds <;> norm_num

/-! ### Claim theorems -/

/-- Claim C1 (code bug): the route computes the score as
`round(correctCount / n * 100)` and the pass decision as
`score >= passingScore` — observable in the response when no progress record
exists (the spec's 2-of-2 scenario scores 100 and passes) — but the
completion effects the claim states are unreachable: with an existing
progress record the handler's `quizAttempts` write makes `save()` reject, the
call answers 500, nothing is persisted, and the record keeps its old status
instead of becoming `completed` with `progress 100` and `completedAt`. -/
theorem quiz_submit_completion_never_persists :
    quizScore quizC1 [0, 1] = 100 ∧
    (submitQuizRoute (some trainingC1) [0, 1] none 5).1 =
      Except.ok { score := 100, passed := true, passingScore := 70 } ∧
    (submitQuizRoute (some trainingC1) [0, 1] none 5).2 = none ∧
    (submitQuizRoute (some trainingC1) [0, 1] (some (newProgress 0)) 5).1 =
      Except.error "Server error" ∧
    (submitQuizRoute (some trainingC1) [0, 1] (some (newProgress 0)) 5).2 =
      some (newProgress 0) ∧
    (newProgress 0).status ≠ "completed" := by
  have hok : (submitQuizRoute (some trainingC1) [0, 1] none 5).1 =
      Except.ok { score := quizScore quizC1 [0, 1],
                  passed := decide (quizC1.passingScore ≤ (quizScore quizC1 [0, 1] : ℚ)),
                  passingScore := quizC1.passingScore } := by
    simp [submitQuizRoute, trainingC1]
  rw [quizC1_score] at hok
  refine ⟨quizC1_score, ?_, rfl, rfl, rfl, by decide⟩
  rw [hok]
  norm_num [quizC1]

/-- Claim C2: certificate issuance is idempotent per user and course.  With a
completed progress record and no pre-existing certificate for the pair, the
first call stores exactly one certificate for the pair, carrying the
generated id; the second call returns the very same response (hence the same
`certificateId`), leaves the certificate collection unchanged (no duplicate)
and the progress record unchanged (no re-snapshot). -/
theorem certificate_issue_idempotent
    (certs : List Certificate) (p : TrainingProgress) (t : Training)
    (u tid : ℕ) (uname gid1 mid1 gid2 mid2 : String)
    (hcomp : p.status = "completed")
    (hnone : findCertificate certs u tid = none) :
    (issueCertificateRoute certs (some p) t u tid uname gid1 mid1).2.1.countP
        (fun c => c.userId == u && c.trainingId == tid) = 1 ∧
    (issueCertificateRoute certs (some p) t u tid uname gid1 mid1).1.toOption.map
        Certificate.certificateId = some gid1 ∧
    (issueCertificateRoute (issueCertificateRoute certs (some p) t u tid uname gid1 mid1).2.1
        (issueCertificateRoute certs (some p) t u tid uname gid1 mid1).2.2
        t u tid uname gid2 mid2).1 =
      (issueCertificateRoute certs (some p) t u tid uname gid1 mid1).1 ∧
    (issueCertificateRoute (issueCertificateRoute certs (some p) t u tid uname gid1 mid1).2.1
        (issueCertificateRoute certs (some p) t u tid uname gid1 mid1).2.2
        t u tid uname gid2 mid2).2 =
      (issueCertificateRoute certs (some p) t u tid uname gid1 mid1).2 := by
  have hzero : certs.countP (fun c => c.userId == u && c.trainingId == tid) = 0 := by
    rw [List.countP_eq_zero]
    exact List.find?_eq_none.mp hnone
  have hfirst :
      issueCertificateRoute certs (some p) t u tid uname gid1 mid1 =
        (Except.ok
          { userId := u, trainingId := tid, certificateId := gid1,
            userName := uname, trainingTitle := t.title,
            completionDate := p.completedAt,
            score := jsOrNum (some p.bestScore) 0,
            passingScore := jsOrNum (t.quiz.map Quiz.passingScore) 0,
            duration := t.duration, category := t.category,
            issuedBy := "LMS Orient Training System",
            isValid := true, validUntil := none, downloadCount := 0,
            mongoId := mid1 },
         certs ++
          [{ userId := u, trainingId := tid, certificateId := gid1,
             userName := uname, trainingTitle := t.title,
             completionDate := p.completedAt,
             score := jsOrNum (some p.bestScore) 0,
             passingScore := jsOrNum (t.quiz.map Quiz.passingScore) 0,
             duration := t.duration, category := t.category,
             issuedBy := "LMS Orient Training System",
             isValid := true, validUntil := none, downloadCount := 0,
             mongoId := mid1 }],
         some { p with
                certificateGenerated := true,
                certificateUrl := some ("/api/training/certificate/" ++ mid1) }) := by
    simp [issueCertificateRoute, hcomp, hnone]
  have hfound :
      findCertificate
        (certs ++
          [{ userId := u, trainingId := tid, certificateId := gid1,
             userName := uname, trainingTitle := t.title,
             completionDate := p.completedAt,
             score := jsOrNum (some p.bestScore) 0,
             passingScore := jsOrNum (t.quiz.map Quiz.passingScore) 0,
             duration := t.duration, category := t.category,
             issuedBy := "LMS Orient Training System",
             isValid := true, validUntil := none, downloadCount := 0,
             mongoId := mid1 }]) u tid =
        some
          { userId := u, trainingId := tid, certificateId := gid1,
            userName := uname, trainingTitle := t.title,
            completionDate := p.completedAt,
            score := jsOrNum (some p.bestScore) 0,
            passingScore := jsOrNum (t.quiz.map Quiz.passingScore) 0,
            duration := t.duration, category := t.category,
            issuedBy := "LMS Orient Training System",
            isValid := true, validUntil := none, downloadCount := 0,
            mongoId := mid1 } := by
    unfold findCertificate at hnone ⊢
    exact find?_append_singleton _ certs _ hnone (by simp)
  refine ⟨?_, ?_, ?_, ?_⟩
  · rw [hfirst]
    simp [List.countP_append, List.countP_cons, hzero]
  · rw [hfirst]
    rfl
  · rw [hfirst]
    simp [issueCertificateRoute, hcomp, hfound]
  · rw [hfirst]
    simp [issueCertificateRoute, hcomp, hfound]

/-- Witness for C2: issuing twice for a completed record starting from an
empty certificate collection returns the id `CERT-A` both times and stores a
single certificate. -/
theorem certificate_issue_idempotent_witness :
    progressC2.status = "completed" ∧
    findCertificate [] 1 2 = none ∧
    (issueCertificateRoute [] (some progressC2) trainingC2 1 2 "jdoe" "CERT-A" "m1").2.1.countP
        (fun c => c.userId == 1 && c.trainingId == 2) = 1 ∧
    (issueCertificateRoute [] (some progressC2) trainingC2 1 2 "jdoe" "CERT-A" "m1").1.toOption.map
        Certificate.certificateId = some "CERT-A" ∧
    (issueCertificateRoute
        (issueCertificateRoute [] (some progressC2) trainingC2 1 2 "jdoe" "CERT-A" "m1").2.1
        (issueCertificateRoute [] (some progressC2) trainingC2 1 2 "jdoe" "CERT-A" "m1").2.2
        trainingC2 1 2 "jdoe" "CERT-B" "m2").1 =
      (issueCertificateRoute [] (some progressC2) trainingC2 1 2 "jdoe" "CERT-A" "m1").1 ∧
    (issueCertificateRoute
        (issueCertificateRoute [] (some progressC2) trainingC2 1 2 "jdoe" "CERT-A" "m1").2.1
        (issueCertificateRoute [] (some progressC2) trainingC2 1 2 "jdoe" "CERT-A" "m1").2.2
        trainingC2 1 2 "jdoe" "CERT-B" "m2").2 =
      (issueCertificateRoute [] (some progressC2) trainingC2 1 2 "jdoe" "CERT-A" "m1").2 := by
  have h := certificate_issue_idempotent [] progressC2 trainingC2 1 2 "jdoe"
    "CERT-A" "m1" "CERT-B" "m2" rfl rfl
  exact ⟨rfl, rfl, h.1, h.2.1, h.2.2.1, h.2.2.2⟩

/-- Claim C3: when the progress record for the pair is missing or not in
status `completed`, requesting a certificate fails with the
precondition-failed error and neither the certificate collection nor the
progress record is changed. -/
theorem certificate_requires_completed_status
    (certs : List Certificate) (prog : Option TrainingProgress) (t : Training)
    (u tid : ℕ) (uname gid mid : String)
    (h : ∀ q, prog = some q → q.status ≠ "completed") :
    (issueCertificateRoute certs prog t u tid uname gid mid).1 =
      Except.error "Training must be completed before generating certificate" ∧
    (issueCertificateRoute certs prog t u tid uname gid mid).2.1 = certs ∧
    (issueCertificateRoute certs prog t u tid uname gid mid).2.2 = prog := by
  cases prog with
  | none => exact ⟨rfl, rfl, rfl⟩
  | some q =>
    have hq := h q rfl
    refine ⟨?_, ?_, ?_⟩ <;> simp [issueCertificateRoute, hq]

/-- Witness for C3: a freshly started (`not_started`) record yields the 400
error and leaves the empty certificate collection empty. -/
theorem certificate_requires_completed_status_witness :
    (newProgress 0).status ≠ "completed" ∧
    (issueCertificateRoute [] (some (newProgress 0)) trainingC3 1 2 "jdoe" "CERT-C" "m3").1 =
      Except.error "Training must be completed before generating certificate" ∧
    (issueCertificateRoute [] (some (newProgress 0)) trainingC3 1 2 "jdoe" "CERT-C" "m3").2.1 =
      [] ∧
    (issueCertificateRoute [] (some (newProgress 0)) trainingC3 1 2 "jdoe" "CERT-C" "m3").2.2 =
      some (newProgress 0) := by
  have h := certificate_requires_completed_status [] (some (newProgress 0)) trainingC3 1 2
    "jdoe" "CERT-C" "m3" (by intro q hq; cases hq; decide)
  exact ⟨by decide, h.1, h.2.1, h.2.2⟩

/-- Claim C4 (code bug): through `POST /:id/quiz/submit` a passing submission
persists nothing at all — the save rejects on the `quizAttempts` write and
the call answers 500, so the stored record keeps `quizPassed = false` and its
old status; the in-memory document the handler builds before the failing
save sets `status 'completed'` without ever touching `quizPassed`, so the
two are not written together on any path through the route.  The model
method `addQuizAttempt`, which the route does not call, behaves as the claim
states: a pass sets `quizPassed` and `status 'completed'` together, and a
subsequent failed attempt leaves `quizPassed`, status, progress and
`completedAt` unchanged, only appending the new attempt. -/
theorem quiz_route_passing_leaves_quizPassed_unset :
    (submitQuizRoute (some trainingC4) [0] (some (newProgress 0)) 7).1 =
      Except.error "Server error" ∧
    (submitQuizRoute (some trainingC4) [0] (some (newProgress 0)) 7).2.map
      TrainingProgress.quizPassed = some false ∧
    (submitQuizRoute (some trainingC4) [0] (some (newProgress 0)) 7).2.map
      TrainingProgress.status = some "not_started" ∧
    (submitQuizPending (newProgress 0) 100 true 7).status = "completed" ∧
    (submitQuizPending (newProgress 0) 100 true 7).quizPassed = false ∧
    ((newProgress 0).addQuizAttempt
        [ { questionIndex := 0, selectedAnswer := 0, isCorrect := true } ]
        100 true 4 7).map TrainingProgress.quizPassed = some true ∧
    ((newProgress 0).addQuizAttempt
        [ { questionIndex := 0, selectedAnswer := 0, isCorrect := true } ]
        100 true 4 7).map TrainingProgress.status = some "completed" ∧
    (((newProgress 0).addQuizAttempt
        [ { questionIndex := 0, selectedAnswer := 0, isCorrect := true } ]
        100 true 4 7).bind fun q =>
      q.addQuizAttempt
        [ { questionIndex := 0, selectedAnswer := 1, isCorrect := false } ]
        0 false 3 8) =
      some { status := "completed", progress := 100, videoWatchTime := 0,
             videoCompleted := false,
             quizAttempts := AttemptsField.arr
               [ { attemptNumber := 1,
                   answers :=
                     [ { questionIndex := 0, selectedAnswer := 0, isCorrect := true } ],
                   score := 100, passed := true, timeSpent := 4, submittedAt := 7 },
                 { attemptNumber := 2,
                   answers :=
                     [ { questionIndex := 0, selectedAnswer := 1, isCorrect := false } ],
                   score := 0, passed := false, timeSpent := 3, submittedAt := 8 } ],
             bestScore := 100, quizPassed := true, certificateGenerated := false,
             certificateUrl := none, currentScore := none, lastQuizAt := none,
             startedAt := none, completedAt := some 7, lastAccessedAt := 0 } := by
  refine ⟨rfl, rfl, rfl, ?_, ?_, ?_, ?_, ?_⟩
  · simp [submitQuizPending, newProgress]
  · simp [submitQuizPending, newProgress]
  · simp [TrainingProgress.addQuizAttempt, newProgress, AttemptsField.jsTruthy]
  · simp [TrainingProgress.addQuizAttempt, newProgress, AttemptsField.jsTruthy]
  · simp [TrainingProgress.addQuizAttempt, newProgress, AttemptsField.jsTruthy]

/-- Claim C5 (counterexample): through `PUT /:id/video-progress`, reporting a
smaller `watchTime` after a larger one makes both the stored `videoWatchTime`
and the stored `progress` decrease — the route overwrites instead of taking
maxima. -/
theorem video_route_not_monotone :
    (videoProgressRoute
        (some (videoProgressRoute (some (newProgress 0)) trainingC5 100 200 false 1))
        trainingC5 10 200 false 2).videoWatchTime <
      (videoProgressRoute (some (newProgress 0)) trainingC5 100 200 false 1).videoWatchTime ∧
    (videoProgressRoute
        (some (videoProgressRoute (some (newProgress 0)) trainingC5 100 200 false 1))
        trainingC5 10 200 false 2).progress <
      (videoProgressRoute (some (newProgress 0)) trainingC5 100 200 false 1).progress := by
  constructor <;>
    · simp [videoProgressRoute, newProgress, trainingC5]
      norm_num [min_def]

/-- Claim C5 (amended): the model method `updateVideoProgress` — which the
video-progress route does not invoke — is monotone: it never decreases
`videoWatchTime` (stored as a maximum) nor `progress` (updated with
`max(current, computed)`). -/
theorem updateVideoProgress_monotone (p : TrainingProgress) (w d : ℚ) (now : ℕ) :
    p.videoWatchTime ≤ (p.updateVideoProgress w d now).videoWatchTime ∧
    p.progress ≤ (p.updateVideoProgress w d now).progress := by
  unfold TrainingProgress.updateVideoProgress
  dsimp only
  split <;> split <;> simp [le_max_left]

/-- Claim C6: `canTakeQuiz` is false without a quiz; false when the course
has video content and the video is not completed; equal to `allowRetakes`
once the quiz is passed; otherwise true exactly while the attempt count is
below `maxAttempts || 3` — in particular false when the count equals the
limit even though the quiz was never passed. -/
theorem canTakeQuiz_spec (p : TrainingProgress) (t : Training) :
    (t.quiz = none → p.canTakeQuiz (some t) = false) ∧
    (t.hasVideoContent = true → p.videoCompleted = false →
      p.canTakeQuiz (some t) = false) ∧
    (∀ qz, t.quiz = some qz → (t.hasVideoContent = false ∨ p.videoCompleted = true) →
      p.quizPassed = true → p.canTakeQuiz (some t) = qz.allowRetakes) ∧
    (∀ qz, t.quiz = some qz → (t.hasVideoContent = false ∨ p.videoCompleted = true) →
      p.quizPassed = false →
      (p.canTakeQuiz (some t) = true ↔ (attemptCount p : ℚ) < jsOrNum qz.maxAttempts 3)) ∧
    (∀ qz, t.quiz = some qz → p.quizPassed = false →
      (attemptCount p : ℚ) = jsOrNum qz.maxAttempts 3 →
      p.canTakeQuiz (some t) = false) := by
  refine ⟨?_, ?_, ?_, ?_, ?_⟩
  · intro h
    simp [TrainingProgress.canTakeQuiz, h]
  · intro hv hvc
    cases hq : t.quiz with
    | none => simp [TrainingProgress.canTakeQuiz, hq]
    | some qz => simp [TrainingProgress.canTakeQuiz, hq, hv, hvc]
  · intro qz hq hgate hpassed
    have hg : (t.hasVideoContent && !p.videoCompleted) = false := by
      rcases hgate with h | h <;> simp [h]
    simp [TrainingProgress.canTakeQuiz, hq, hg, hpassed]
  · intro qz hq hgate hpassed
    have hg : (t.hasVideoContent && !p.videoCompleted) = false := by
      rcases hgate with h | h <;> simp [h]
    simp [TrainingProgress.canTakeQuiz, hq, hg, hpassed]
  · intro qz hq hpassed heq
    cases hg : (t.hasVideoContent && !p.videoCompleted) with
    | true => simp [TrainingProgress.canTakeQuiz, hq, hg]
    | false => simp [TrainingProgress.canTakeQuiz, hq, hg, hpassed, heq]

/-- Witness for C6: with all 3 of 3 attempts used and the quiz never passed,
eligibility is denied. -/
theorem canTakeQuiz_spec_witness :
    trainingC6.quiz = some quizC6 ∧
    progressC6.quizPassed = false ∧
    (attemptCount progressC6 : ℚ) = jsOrNum quizC6.maxAttempts 3 ∧
    progressC6.canTakeQuiz (some trainingC6) = false := by
  have heq : (attemptCount progressC6 : ℚ) = jsOrNum quizC6.maxAttempts 3 := by
    norm_num [attemptCount, progressC6, newProgress, AttemptsField.jsTruthy,
      AttemptsField.jsLength, jsOrNum, quizC6]
  exact ⟨rfl, rfl, heq,
    (canTakeQuiz_spec progressC6 trainingC6).2.2.2.2 quizC6 rfl rfl heq⟩

/-- Claim C7 (counterexample): on a quiz-less course, reporting 95 of 100
seconds (at least 90 percent) through `PUT /:id/video-progress` without the
client `completed` flag leaves `videoCompleted` false and the status not
`completed` — the 90-percent rule the claim describes is not applied by the
route. -/
theorem video_route_ninety_percent_not_completed :
    (videoProgressRoute (some (newProgress 0)) trainingC7 95 100 false 3).videoCompleted =
      false ∧
    (videoProgressRoute (some (newProgress 0)) trainingC7 95 100 false 3).status ≠
      "completed" := by
  constructor
  · norm_num [videoProgressRoute, newProgress]
  · have h : (videoProgressRoute (some (newProgress 0)) trainingC7 95 100 false 3).status =
        "not_started" := by
      norm_num [videoProgressRoute, newProgress]
    rw [h]
    decide

/-- Claim C7 (amended): on a quiz-less course the route completes the
training in the same update, but the trigger is the client-reported
`completed` flag, not the 90-percent threshold: with the flag set it marks
the video completed, sets `progress` to 100 (hence at least 50), and sets
`status 'completed'` with `completedAt`. -/
theorem video_route_completed_flag_completes_no_quiz
    (p : TrainingProgress) (t : Training) (w d : ℚ) (now : ℕ) (hq : t.quiz = none) :
    (videoProgressRoute (some p) t w d true now).videoCompleted = true ∧
    (videoProgressRoute (some p) t w d true now).progress = 100 ∧
    (50 : ℚ) ≤ (videoProgressRoute (some p) t w d true now).progress ∧
    (videoProgressRoute (some p) t w d true now).status = "completed" ∧
    (videoProgressRoute (some p) t w d true now).completedAt = some now := by
  simp [videoProgressRoute, quizMissingOrEmpty, hq]
  norm_num

/-- Witness for C7's amended claim: reporting 95 of 100 seconds with the
`completed` flag on the quiz-less course completes it immediately. -/
theorem video_route_completed_flag_completes_no_quiz_witness :
    trainingC7.quiz = none ∧
    (videoProgressRoute (some (newProgress 0)) trainingC7 95 100 true 3).videoCompleted =
      true ∧
    (videoProgressRoute (some (newProgress 0)) trainingC7 95 100 true 3).progress = 100 ∧
    (50 : ℚ) ≤ (videoProgressRoute (some (newProgress 0)) trainingC7 95 100 true 3).progress ∧
    (videoProgressRoute (some (newProgress 0)) trainingC7 95 100 true 3).status =
      "completed" ∧
    (videoProgressRoute (some (newProgress 0)) trainingC7 95 100 true 3).completedAt =
      some 3 := by
  have h := video_route_completed_flag_completes_no_quiz (newProgress 0) trainingC7 95 100 3 rfl
  exact ⟨rfl, h.1, h.2.1, h.2.2.1, h.2.2.2.1, h.2.2.2.2⟩

/-- Claim C8 (code bug): the `GET /:id` access check matches the claimed
predicate only for `targetAudience 'all'`.  For any other audience it reads
the paths `departments` and `roles`, which the Training schema does not
declare (it declares `specificDepartments` and `specificRoles`), so the read
yields `undefined` and `.includes` throws a TypeError instead of granting
membership-based access: a Finance user is denied (500) a course restricted
to Finance, while the claimed predicate grants it. -/
theorem access_check_specific_audience_throws :
    hasAccessRoute trainingC8 "Finance" "employee" =
      Except.error "TypeError: includes of undefined" ∧
    canAccessClaim trainingC8 "Finance" "employee" = true ∧
    hasAccessRoute trainingC8all "Finance" "employee" = Except.ok true := by
  refine ⟨rfl, rfl, rfl⟩

/-- Claim C9 (code bug): `POST /:id/quiz/submit` never records an attempt.
The in-memory document it builds holds, in place of the attempts array, the
value of `(quizAttempts || 0) + 1` — the array coerced to a string, with no
attempt number, per-question correctness or elapsed time; that value cannot
be cast or validated against the schema's subdocument array, so `save()`
rejects, the call answers 500, and nothing at all is persisted — not even
the `bestScore` update.  The model method `addQuizAttempt`, which the route
never calls, performs exactly the append the claim describes. -/
theorem quiz_route_attempts_not_appended :
    (submitQuizPending (newProgress 0) 100 true 9).quizAttempts =
      AttemptsField.coerced "1" ∧
    (submitQuizRoute (some trainingC9) [0] (some (newProgress 0)) 9).1 =
      Except.error "Server error" ∧
    (submitQuizRoute (some trainingC9) [0] (some (newProgress 0)) 9).2.map
      (fun q => q.quizAttempts) = some (AttemptsField.arr []) ∧
    (submitQuizRoute (some trainingC9) [0] (some (newProgress 0)) 9).2.map
      TrainingProgress.bestScore = some 0 ∧
    ((newProgress 0).addQuizAttempt
        [ { questionIndex := 0, selectedAnswer := 0, isCorrect := true } ] 100 true 4 9).map
      (fun q => q.quizAttempts) =
      some (AttemptsField.arr
        [ { attemptNumber := 1,
            answers := [ { questionIndex := 0, selectedAnswer := 0, isCorrect := true } ],
            score := 100, passed := true, timeSpent := 4, submittedAt := 9 } ]) := by
  refine ⟨?_, rfl, rfl, rfl, ?_⟩
  · simp [submitQuizPending, newProgress, routeQuizAttemptsWrite, attemptsJsString]
    rfl
  · simp [TrainingProgress.addQuizAttempt, newProgress, AttemptsField.jsTruthy]

/-- Claim C10: `PUT /:id/progress` stores the reported value clamped to
`[0, 100]`; whenever the clamped value is exactly 100 it sets
`status 'completed'` and `completedAt`, while `quizPassed` is left untouched
— so completion is reachable without any quiz submission. -/
theorem progress_route_clamps_and_completes (p : TrainingProgress) (input : ℚ) (now : ℕ) :
    (updateProgressRoute p input now).progress = min 100 (max 0 input) ∧
    (min (100 : ℚ) (max 0 input) = 100 →
      (updateProgressRoute p input now).status = "completed" ∧
      (updateProgressRoute p input now).completedAt = some now) ∧
    (updateProgressRoute p input now).quizPassed = p.quizPassed := by
  unfold updateProgressRoute
  dsimp only
  by_cases h : min (100 : ℚ) (max 0 input) = 100 <;> simp [h]

/-- Witness for C10: reporting 150 on a fresh record clamps to 100 and
completes the training with `quizPassed` still false. -/
theorem progress_route_clamps_and_completes_witness :
    min (100 : ℚ) (max 0 150) = 100 ∧
    (updateProgressRoute (newProgress 0) 150 4).progress = 100 ∧
    (updateProgressRoute (newProgress 0) 150 4).status = "completed" ∧
    (updateProgressRoute (newProgress 0) 150 4).completedAt = some 4 ∧
    (updateProgressRoute (newProgress 0) 150 4).quizPassed = false := by
  have hmin : min (100 : ℚ) (max 0 150) = 100 := by
    norm_num [min_def, max_def]
  have h := progress_route_clamps_and_completes (newProgress 0) 150 4
  refine ⟨hmin, ?_, (h.2.1 hmin).1, (h.2.1 hmin).2, h.2.2.trans rfl⟩
  rw [h.1, hmin]

end LMS
